import Mathlib

/-!
Shallow embedding of the expense-tracker MCP server (src/server.py).

The five tools (add_expense, list_expenses, summarize_expenses,
delete_expense, update_expense) are modelled as pure functions from their
arguments and an explicit server state to a result and a new server state.
The server state carries the captured startup error (STARTUP_ERROR), the
pool flag (db_pool is not None), the number of checked-out pool
connections, a per-call driver-fault oracle (a statement execution that
raises), and the expenses table.

String primitives (strip, lower, lexicographic comparison) are defined
over character lists so that every definition evaluates inside the
kernel.
-/

namespace ExpenseServer

/-- Single-quote character, kept out of literals. -/
def squote : Char := Char.ofNat 39

/-- Double-quote character, kept out of literals. -/
def dquote : Char := Char.ofNat 34

/-- Python str.strip with no argument: drop whitespace at both ends. -/
def pyStrip (s : String) : String :=
  String.mk (((s.toList.dropWhile Char.isWhitespace).reverse.dropWhile
    Char.isWhitespace).reverse)

/-- Python str.strip with a character argument: drop that character at
both ends. -/
def stripChar (c : Char) (s : String) : String :=
  String.mk (((s.toList.dropWhile (fun a => a == c)).reverse.dropWhile
    (fun a => a == c)).reverse)

/-- clean_input from server.py: value.strip().strip(squote).strip(dquote)
for strings. -/
def clean_input (s : String) : String :=
  stripChar dquote (stripChar squote (pyStrip s))

/-- Python str.isdigit: non-empty and every character a digit. -/
def pyIsDigit (s : String) : Bool :=
  !s.toList.isEmpty && s.toList.all Char.isDigit

/-- ASCII lower-casing of one character. -/
def charLower (c : Char) : Char :=
  if 65 ≤ c.toNat && c.toNat ≤ 90 then Char.ofNat (c.toNat + 32) else c

/-- Python str.lower. -/
def pyLower (s : String) : String :=
  String.mk (s.toList.map charLower)

/-- Lexicographic order on character lists by code point, the order the
database applies to the YYYY-MM-DD date strings and to category names. -/
def lexLe : List Char → List Char → Bool
  | [], _ => true
  | _ :: _, [] => false
  | a :: as, b :: bs =>
      if a.toNat < b.toNat then true
      else if a.toNat = b.toNat then lexLe as bs
      else false

/-- Lexicographic comparison of strings. -/
def strLe (a b : String) : Bool := lexLe a.toList b.toList

/-- Strict lexicographic comparison of strings. -/
def strLt (a b : String) : Bool := strLe a b && a != b

/-- Insert into a list sorted by a boolean relation. -/
def insertLe (le : α → α → Bool) (x : α) : List α → List α
  | [] => [x]
  | y :: ys => if le x y then x :: y :: ys else y :: insertLe le x ys

/-- Insertion sort by a boolean relation (ORDER BY ... ASC). -/
def sortLe (le : α → α → Bool) : List α → List α
  | [] => []
  | x :: xs => insertLe le x (sortLe le xs)

/-- One row of the expenses table. -/
structure Expense where
  id : Nat
  user_id : String
  date : String
  amount : ℚ
  category : String
  subcategory : String
  note : String
deriving Repr, DecidableEq

/-- The expenses table plus the id sequence. -/
structure DB where
  rows : List Expense
  nextId : Nat
deriving Repr, DecidableEq

/-- Whole-server state: captured startup error, pool flag, checked-out
connection count, a per-call statement-fault oracle, and the table. -/
structure ServerState where
  startupError : Option String
  poolInit : Bool
  checkedOut : Nat
  fault : Option String
  db : DB
deriving Repr, DecidableEq

/-- The date argument of update_expense: absent, a string, or an int. -/
inductive DateArg where
  | nothing
  | ofStr (s : String)
  | ofInt (n : Int)
deriving Repr, DecidableEq

/-- One constructor per return statement of the Python tools. -/
inductive ToolResult where
  | identityError
  | dbError (msg : String)
  | invalidDate (dateStr : String)
  | noFields
  | notFound (expense_id : Nat) (user_id : String)
  | added (id : Nat)
  | deleted (expense_id : Nat)
  | updated (expense_id : Nat)
  | listed (rows : List Expense)
  | noExpensesInRange (user_id start_date end_date : String)
  | summarized (entries : List (String × ℚ))
  | noExpenses (user_id : String)
deriving Repr, DecidableEq

/-- Wrap a string in single quotes. -/
def quoted (s : String) : String := squote.toString ++ s ++ squote.toString

/-- The fixed IDENTITY_ERROR message of ensure_user_identity. -/
def identityMessage : String :=
  "IDENTITY_ERROR: I do not know the user" ++ squote.toString ++
  "s name yet. Please ask the user: " ++ quoted ("What is your name?") ++
  " and then try again with their answer."

/-- The in-band strings the Python tools return for each outcome. -/
def render : ToolResult → String
  | .identityError => identityMessage
  | .dbError msg => "Database error: " ++ msg
  | .invalidDate d =>
      "Error: Invalid date format " ++ quoted d ++
      ". Please use YYYY-MM-DD (e.g., " ++ quoted ("2026-01-01") ++ ")."
  | .noFields => "No fields provided for update."
  | .notFound eid u => "Expense ID " ++ toString eid ++ " not found for user " ++ u ++ "."
  | .added i => "Expense added successfully. ID: " ++ toString i
  | .deleted eid => "Expense ID " ++ toString eid ++ " deleted successfully."
  | .updated eid => "Expense ID " ++ toString eid ++ " updated successfully."
  | .listed rows => reprStr rows
  | .noExpensesInRange u a b =>
      "No expenses found for user " ++ u ++ " between " ++ a ++ " and " ++ b ++ "."
  | .summarized entries => reprStr entries
  | .noExpenses u => "No expenses found for user " ++ u ++ "."

/-- ensure_user_identity from server.py: rejects an empty and a guest
(case-insensitive) user id. -/
def ensure_user_identity (user_id : String) : Option String :=
  if user_id == "" || pyLower user_id == "guest" then some identityMessage
  else none

/-- The error raised by get_db_connection before any connection is taken,
if any: the captured startup error is replayed, else a missing pool is
reported. -/
def getConnErr (s : ServerState) : Option String :=
  match s.startupError with
  | some err => some ("DATABASE ERROR: " ++ err)
  | none =>
      if !s.poolInit then some ("Database pool is not initialized (Unknown Reason).")
      else none

/-- The with get_db_connection() block inside each tool try/except: on a
guard error no connection is taken and the exception is rendered by the
except clause; otherwise a connection is checked out, the body runs, and
the finally clause returns the connection on both the ok and the error
path.  A body error is rendered by the except clause and leaves the
table as it was (nothing was committed). -/
def withConn (s : ServerState) (body : Except String (ToolResult × DB)) :
    ToolResult × ServerState :=
  match getConnErr s with
  | some e => (.dbError e, s)
  | none =>
      let acquired : ServerState := { s with checkedOut := s.checkedOut + 1 }
      match body with
      | .ok (r, db2) =>
          (r, { acquired with checkedOut := acquired.checkedOut - 1, db := db2 })
      | .error e =>
          (.dbError e, { acquired with checkedOut := acquired.checkedOut - 1 })

/-- add_expense from server.py. -/
def add_expense (date : String) (amount : ℚ) (category subcategory note : String)
    (user_id : String) (s : ServerState) : ToolResult × ServerState :=
  match ensure_user_identity user_id with
  | some _ => (.identityError, s)
  | none =>
      withConn s (
        match s.fault with
        | some e => .error e
        | none =>
            let newId := s.db.nextId
            .ok (.added newId,
              { rows := s.db.rows ++
                  [⟨newId, user_id, date, amount, category, subcategory, note⟩],
                nextId := newId + 1 }))

/-- The WHERE clause of list_expenses. -/
def listMatch (user_id start_date end_date : String) (r : Expense) : Bool :=
  r.user_id == user_id && strLe start_date r.date && strLe r.date end_date

/-- The SELECT of list_expenses: rows of the user with date in the
inclusive range, ordered by date ascending. -/
def listRows (db : DB) (user_id start_date end_date : String) : List Expense :=
  sortLe (fun x y => strLe x.date y.date)
    (db.rows.filter (listMatch user_id start_date end_date))

/-- list_expenses from server.py. -/
def list_expenses (start_date end_date : String) (user_id : String)
    (s : ServerState) : ToolResult × ServerState :=
  match ensure_user_identity user_id with
  | some _ => (.identityError, s)
  | none =>
      withConn s (
        match s.fault with
        | some e => .error e
        | none =>
            let rows := listRows s.db user_id start_date end_date
            if rows.isEmpty then
              .ok (.noExpensesInRange user_id start_date end_date, s.db)
            else .ok (.listed rows, s.db))

/-- The WHERE clause of summarize_expenses: the category condition is
only added when the supplied category is truthy (present and non-empty). -/
def summMatch (user_id start_date end_date : String) (category : Option String)
    (r : Expense) : Bool :=
  r.user_id == user_id && strLe start_date r.date && strLe r.date end_date &&
    (match category with
     | some c => if c == "" then true else r.category == c
     | none => true)

/-- The grouped SELECT of summarize_expenses: per category of a matching
row, the sum of amounts, ordered by category name ascending. -/
def summaryRows (db : DB) (user_id start_date end_date : String)
    (category : Option String) : List (String × ℚ) :=
  (sortLe strLe
    ((db.rows.filter (summMatch user_id start_date end_date category)).map
      (fun r => r.category)).dedup).map
    (fun c =>
      (c, (((db.rows.filter (summMatch user_id start_date end_date category)).filter
        (fun r => r.category == c)).map (fun r => r.amount)).sum))

/-- summarize_expenses from server.py. -/
def summarize_expenses (start_date end_date : String) (category : Option String)
    (user_id : String) (s : ServerState) : ToolResult × ServerState :=
  match ensure_user_identity user_id with
  | some _ => (.identityError, s)
  | none =>
      withConn s (
        match s.fault with
        | some e => .error e
        | none =>
            let entries := summaryRows s.db user_id start_date end_date category
            if entries.isEmpty then .ok (.noExpenses user_id, s.db)
            else .ok (.summarized entries, s.db))

/-- delete_expense from server.py: DELETE scoped to (id, user_id); zero
matched rows reports not-found without distinguishing a wrong owner. -/
def delete_expense (expense_id : Nat) (user_id : String) (s : ServerState) :
    ToolResult × ServerState :=
  match ensure_user_identity user_id with
  | some _ => (.identityError, s)
  | none =>
      withConn s (
        match s.fault with
        | some e => .error e
        | none =>
            let matched := s.db.rows.countP (fun r =>
              r.id == expense_id && r.user_id == user_id)
            if matched = 0 then .ok (.notFound expense_id user_id, s.db)
            else
              .ok (.deleted expense_id,
                { s.db with rows := s.db.rows.filter (fun r =>
                    !(r.id == expense_id && r.user_id == user_id)) }))

/-- The cleaned date argument: clean_input applies to strings only. -/
def cleanDate : DateArg → DateArg
  | .ofStr d => .ofStr (clean_input d)
  | x => x

/-- The date validation of update_expense: an int, or a digits-only
string, is rejected. -/
def badDate : DateArg → Bool
  | .ofInt _ => true
  | .ofStr d => pyIsDigit d
  | .nothing => false

/-- How the rejected date is shown in the error message. -/
def dateShow : DateArg → String
  | .ofStr d => d
  | .ofInt n => toString n
  | .nothing => "None"

/-- The SET clause value for the date column: `if date:` keeps a string
only when non-empty (falsy values are skipped). -/
def dateField : DateArg → Option String
  | .ofStr d => if d == "" then none else some d
  | _ => none

/-- The SET clause value for the category column: `if category:` keeps a
string only when non-empty (falsy values are skipped). -/
def truthyField : Option String → Option String
  | some c => if c == "" then none else some c
  | none => none

/-- One row after the UPDATE statement: each column in the SET clause is
overwritten, the rest keep their values. -/
def applyUpdate (dateF : Option String) (amount : Option ℚ)
    (categoryF subcategoryC noteC : Option String) (r : Expense) : Expense :=
  { r with
    date := dateF.getD r.date,
    amount := amount.getD r.amount,
    category := categoryF.getD r.category,
    subcategory := subcategoryC.getD r.subcategory,
    note := noteC.getD r.note }

/-- update_expense from server.py: inputs are cleaned, the date is
validated before any connection is taken, the SET clause is built from
the supplied fields (date and category only when truthy, the rest when
not None), and the UPDATE is scoped to (id, user_id). -/
def update_expense (expense_id : Nat) (date : DateArg) (amount : Option ℚ)
    (category subcategory note : Option String) (user_id : String)
    (s : ServerState) : ToolResult × ServerState :=
  match ensure_user_identity user_id with
  | some _ => (.identityError, s)
  | none =>
      let dateC := cleanDate date
      let categoryC := category.map clean_input
      let subcategoryC := subcategory.map clean_input
      let noteC := note.map clean_input
      if badDate dateC then (.invalidDate (dateShow dateC), s)
      else
        withConn s (
          match s.fault with
          | some e => .error e
          | none =>
              let dateF := dateField dateC
              let categoryF := truthyField categoryC
              if !(dateF.isSome || amount.isSome || categoryF.isSome ||
                   subcategoryC.isSome || noteC.isSome) then
                .ok (.noFields, s.db)
              else
                let matched := s.db.rows.countP (fun r =>
                  r.id == expense_id && r.user_id == user_id)
                if matched = 0 then .ok (.notFound expense_id user_id, s.db)
                else
                  .ok (.updated expense_id,
                    { s.db with rows := s.db.rows.map (fun r =>
                        if r.id == expense_id && r.user_id == user_id then
                          applyUpdate dateF amount categoryF subcategoryC noteC r
                        else r) }))

/-- Startup (the module-level try block of server.py): the connection
string is cleaned and checked, pool construction may fail (oracle
poolFail); any failure is captured once into the startup error and the
pool stays absent, instead of the process crashing. -/
def initState (rawUrl : Option String) (poolFail : Option String) (db0 : DB) :
    ServerState :=
  let cleaned := match rawUrl with
    | some r => clean_input r
    | none => ""
  if cleaned == "" then
    { startupError := some ("Startup Failed: DATABASE_URL environment variable is missing or empty."),
      poolInit := false, checkedOut := 0, fault := none, db := db0 }
  else
    match poolFail with
    | some e =>
        { startupError := some ("Startup Failed: " ++ e),
          poolInit := false, checkedOut := 0, fault := none, db := db0 }
    | none =>
        { startupError := none, poolInit := true, checkedOut := 0,
          fault := none, db := db0 }

/-- A state whose pool came up and whose current call hits no driver
fault. -/
def healthy (s : ServerState) : Prop :=
  s.startupError = none ∧ s.poolInit = true ∧ s.fault = none

/-- The identity guard passes: non-empty and not guest. -/
def validUser (u : String) : Bool :=
  !(u == "" || pyLower u == "guest")

/-- The three error prefixes recognized by callers. -/
def recognizedError (s : String) : Bool :=
  ("Database error:").toList.isPrefixOf s.toList ||
  ("IDENTITY_ERROR:").toList.isPrefixOf s.toList ||
  ("Error:").toList.isPrefixOf s.toList

/-- The four failure kinds of the error taxonomy named by the spec:
PoolUnavailable and StoreError surface as dbError, IdentityUnknown as
identityError, ValidationError as invalidDate or noFields. -/
def isFailureKind : ToolResult → Bool
  | .identityError => true
  | .dbError _ => true
  | .invalidDate _ => true
  | .noFields => true
  | _ => false

/-- The field-presence guard of update_expense, after cleaning. -/
def anyUpdateField (da : DateArg) (amt : Option ℚ) (c sc nt : Option String) : Bool :=
  (dateField (cleanDate da)).isSome || amt.isSome ||
    (truthyField (Option.map clean_input c)).isSome ||
    (Option.map clean_input sc).isSome || (Option.map clean_input nt).isSome

/-- The category condition appended to the summarize WHERE clause. -/
def catCond (category : Option String) (r : Expense) : Bool :=
  match category with
  | some c => if c == "" then true else r.category == c
  | none => true

/-- Whether a category name survives the optional summarize filter. -/
def passFilter : Option String → String → Bool
  | some c, x => c == "" || x == c
  | none, _ => true

/-- An empty healthy demonstration state. -/
def demoState : ServerState :=
  { startupError := none, poolInit := true, checkedOut := 0, fault := none,
    db := { rows := [], nextId := 1 } }

/-- A single row owned by bob, for the isolation scenarios. -/
def c1Row : Expense := ⟨1, "bob", "2024-01-01", 10, "food", "", ""⟩

/-- A healthy state holding only the bob row. -/
def c1State : ServerState :=
  { startupError := none, poolInit := true, checkedOut := 0, fault := none,
    db := { rows := [c1Row], nextId := 2 } }

/-- A single row owned by alice, for the update scenarios. -/
def c4Row : Expense := ⟨7, "alice", "2024-05-05", 3, "food", "pizza", "n"⟩

/-- A healthy state holding only the alice row. -/
def c4State : ServerState :=
  { startupError := none, poolInit := true, checkedOut := 0, fault := none,
    db := { rows := [c4Row], nextId := 8 } }

/-- The state produced by a failed startup, for the replay scenario. -/
def c7FailState : ServerState := initState none none { rows := [], nextId := 1 }

/-- The state produced by a failed pool construction. -/
def c7ErrState : ServerState :=
  initState (some ("postgres://x")) (some ("boom")) { rows := [], nextId := 1 }

/-- A state for the summary scenario: two alice rows in range in two
categories, one bob row. -/
def c6State : ServerState :=
  { startupError := none, poolInit := true, checkedOut := 0, fault := none,
    db := { rows := [⟨1, "alice", "2024-02-01", 10, "food", "", ""⟩,
                     ⟨2, "alice", "2024-03-01", 5, "transport", "", ""⟩,
                     ⟨3, "bob", "2024-02-15", 7, "food", "", ""⟩],
            nextId := 4 } }


/-- A passing identity guard returns no error. -/
theorem ensure_none_of_valid {u : String} (h : validUser u = true) :
    ensure_user_identity u = none := by
  unfold validUser at h
  rw [Bool.not_eq_true'] at h
  unfold ensure_user_identity
  simp [h]

/-- A healthy pool raises no error before checkout. -/
theorem getConnErr_none {s : ServerState} (h1 : s.startupError = none)
    (h2 : s.poolInit = true) : getConnErr s = none := by
  unfold getConnErr
  rw [h1, h2]
  rfl

/-- Running a successful body on a healthy pool commits the new table and
balances the checkout. -/
theorem withConn_ok {s : ServerState} (hg : getConnErr s = none)
    (r : ToolResult) (db2 : DB) :
    withConn s (.ok (r, db2)) = (r, { s with db := db2 }) := by
  unfold withConn
  rw [hg]
  simp

/-- The checked-out connection count is restored on every path of the
scoped acquisition. -/
theorem withConn_checkedOut (s : ServerState) (body : Except String (ToolResult × DB)) :
    (withConn s body).2.checkedOut = s.checkedOut := by
  unfold withConn
  cases getConnErr s with
  | some e => rfl
  | none =>
      cases body with
      | ok p => cases p; simp
      | error e => simp

/-- add_expense on a healthy state appends one fresh row. -/
theorem add_run {u : String} {s : ServerState} (hu : validUser u = true)
    (hs : s.startupError = none) (hp : s.poolInit = true) (hf : s.fault = none)
    (d : String) (amt : ℚ) (c sc nt : String) :
    add_expense d amt c sc nt u s =
      (.added s.db.nextId,
       { s with db := { rows := s.db.rows ++ [⟨s.db.nextId, u, d, amt, c, sc, nt⟩],
                        nextId := s.db.nextId + 1 } }) := by
  simp only [add_expense, ensure_none_of_valid hu, hf]
  rw [withConn_ok (getConnErr_none hs hp), hf]

/-- list_expenses on a healthy state reports the ordered query result and
leaves the state alone. -/
theorem list_run {u : String} {s : ServerState} (hu : validUser u = true)
    (hs : s.startupError = none) (hp : s.poolInit = true) (hf : s.fault = none)
    (a b : String) :
    list_expenses a b u s =
      ((if (listRows s.db u a b).isEmpty then .noExpensesInRange u a b
        else .listed (listRows s.db u a b)), s) := by
  simp only [list_expenses, ensure_none_of_valid hu, hf]
  split
  · rw [withConn_ok (getConnErr_none hs hp)]
  · rw [withConn_ok (getConnErr_none hs hp)]

/-- summarize_expenses on a healthy state reports the grouped query
result and leaves the state alone. -/
theorem summarize_run {u : String} {s : ServerState} (hu : validUser u = true)
    (hs : s.startupError = none) (hp : s.poolInit = true) (hf : s.fault = none)
    (a b : String) (cat : Option String) :
    summarize_expenses a b cat u s =
      ((if (summaryRows s.db u a b cat).isEmpty then .noExpenses u
        else .summarized (summaryRows s.db u a b cat)), s) := by
  simp only [summarize_expenses, ensure_none_of_valid hu, hf]
  split
  · rw [withConn_ok (getConnErr_none hs hp)]
  · rw [withConn_ok (getConnErr_none hs hp)]

/-- delete_expense on a healthy state either reports not-found untouched
or removes exactly the owned row. -/
theorem delete_run {u : String} {s : ServerState} (hu : validUser u = true)
    (hs : s.startupError = none) (hp : s.poolInit = true) (hf : s.fault = none)
    (eid : Nat) :
    delete_expense eid u s =
      (if s.db.rows.countP (fun r => r.id == eid && r.user_id == u) = 0 then
        (.notFound eid u, s)
       else
        (.deleted eid,
         { s with db := { s.db with rows := s.db.rows.filter (fun r =>
             !(r.id == eid && r.user_id == u)) } })) := by
  simp only [delete_expense, ensure_none_of_valid hu, hf]
  split
  · rw [withConn_ok (getConnErr_none hs hp)]
  · rw [withConn_ok (getConnErr_none hs hp), hf]

/-- update_expense on a healthy state, with a date that passes
validation: it rejects an empty SET clause, else reports not-found
untouched or rewrites exactly the owned row. -/
theorem update_run {u : String} {s : ServerState} (hu : validUser u = true)
    (hs : s.startupError = none) (hp : s.poolInit = true) (hf : s.fault = none)
    (eid : Nat) (da : DateArg) (amt : Option ℚ) (c sc nt : Option String)
    (hdate : badDate (cleanDate da) = false) :
    update_expense eid da amt c sc nt u s =
      (if anyUpdateField da amt c sc nt = false then (.noFields, s)
       else if s.db.rows.countP (fun r => r.id == eid && r.user_id == u) = 0 then
        (.notFound eid u, s)
       else
        (.updated eid,
         { s with db := { s.db with rows := s.db.rows.map (fun r =>
             if r.id == eid && r.user_id == u then
               applyUpdate (dateField (cleanDate da)) amt
                 (truthyField (Option.map clean_input c))
                 (Option.map clean_input sc) (Option.map clean_input nt) r
             else r) } })) := by
  have hgc := getConnErr_none hs hp
  simp only [update_expense, ensure_none_of_valid hu, hf, hdate, Bool.false_eq_true,
    if_false, anyUpdateField]
  cases hany : (dateField (cleanDate da)).isSome || amt.isSome ||
      (truthyField (Option.map clean_input c)).isSome ||
      (Option.map clean_input sc).isSome || (Option.map clean_input nt).isSome with
  | false =>
      simp only [hany, Bool.not_false, if_true]
      rw [withConn_ok hgc]
  | true =>
      simp only [hany, Bool.not_true, Bool.false_eq_true, if_false]
      split
      · rw [withConn_ok hgc]
        simp
      · rw [withConn_ok hgc, hf]
        simp

/-- Claim C2: on every one of the five operations, an empty or guest
(case-insensitive) user id yields the IdentityUnknown signal and the
stored expense table, indeed the whole state, is unchanged; in
particular add with a guest user creates no row. -/
theorem c2_guest_rejected_everywhere (u : String)
    (h : (u == "" || pyLower u == "guest") = true)
    (d : String) (amt : ℚ) (c sc nt a b : String) (cat : Option String)
    (eid : Nat) (da : DateArg) (amt2 : Option ℚ) (c2 sc2 nt2 : Option String)
    (s : ServerState) :
    add_expense d amt c sc nt u s = (.identityError, s) ∧
    list_expenses a b u s = (.identityError, s) ∧
    summarize_expenses a b cat u s = (.identityError, s) ∧
    delete_expense eid u s = (.identityError, s) ∧
    update_expense eid da amt2 c2 sc2 nt2 u s = (.identityError, s) := by
  have he : ensure_user_identity u = some identityMessage := by
    unfold ensure_user_identity
    rw [h]
    rfl
  refine ⟨?_, ?_, ?_, ?_, ?_⟩ <;>
    simp only [add_expense, list_expenses, summarize_expenses, delete_expense,
      update_expense, he]

/-- Claim C2 witness: the guest user is rejected by all five operations
on a concrete state, which is left unchanged. -/
theorem c2_guest_rejected_everywhere_witness :
    (("guest" == "" || pyLower ("guest") == "guest") = true) ∧
    add_expense ("2024-03-01") 10 ("food") ("") ("") ("guest") demoState =
      (.identityError, demoState) ∧
    list_expenses ("2024-01-01") ("2024-12-31") ("guest") demoState =
      (.identityError, demoState) ∧
    summarize_expenses ("2024-01-01") ("2024-12-31") none ("guest") demoState =
      (.identityError, demoState) ∧
    delete_expense 1 ("guest") demoState = (.identityError, demoState) ∧
    update_expense 1 DateArg.nothing none none none (some ("x")) ("guest") demoState =
      (.identityError, demoState) :=
  ⟨rfl, c2_guest_rejected_everywhere ("guest") rfl ("2024-03-01") 10 ("food") ("")
    ("") ("2024-01-01") ("2024-12-31") none 1 DateArg.nothing none none none
    (some ("x")) demoState⟩

/-- Claim C8: after any call to any of the five operations, on every
path including guard rejections and statement faults, the number of
checked-out pool connections equals the number before the call. -/
theorem c8_no_connection_leak (d : String) (amt : ℚ) (c sc nt a b : String)
    (cat : Option String) (eid : Nat) (da : DateArg) (amt2 : Option ℚ)
    (c2 sc2 nt2 : Option String) (u : String) (s : ServerState) :
    (add_expense d amt c sc nt u s).2.checkedOut = s.checkedOut ∧
    (list_expenses a b u s).2.checkedOut = s.checkedOut ∧
    (summarize_expenses a b cat u s).2.checkedOut = s.checkedOut ∧
    (delete_expense eid u s).2.checkedOut = s.checkedOut ∧
    (update_expense eid da amt2 c2 sc2 nt2 u s).2.checkedOut = s.checkedOut := by
  refine ⟨?_, ?_, ?_, ?_, ?_⟩
  · unfold add_expense
    cases ensure_user_identity u with
    | some m => rfl
    | none => exact withConn_checkedOut _ _
  · unfold list_expenses
    cases ensure_user_identity u with
    | some m => rfl
    | none => exact withConn_checkedOut _ _
  · unfold summarize_expenses
    cases ensure_user_identity u with
    | some m => rfl
    | none => exact withConn_checkedOut _ _
  · unfold delete_expense
    cases ensure_user_identity u with
    | some m => rfl
    | none => exact withConn_checkedOut _ _
  · unfold update_expense
    cases ensure_user_identity u with
    | some m => rfl
    | none =>
        dsimp only
        split
        · rfl
        · exact withConn_checkedOut _ _

/-- Claim C10: summarize with an empty-string category behaves exactly
as summarize with the category absent, on every state. -/
theorem c10_empty_category_same_as_absent (a b u : String) (s : ServerState) :
    summarize_expenses a b (some ("")) u s = summarize_expenses a b none u s := by
  have hm : summMatch u a b (some ("")) = summMatch u a b none := by
    funext r
    rfl
  have hs : summaryRows s.db u a b (some ("")) = summaryRows s.db u a b none := by
    unfold summaryRows
    rw [hm]
  unfold summarize_expenses
  cases ensure_user_identity u with
  | some m => rfl
  | none =>
      dsimp only
      rw [hs]

/-- Claim C1: when every row carrying the requested id belongs to a
different owner (in particular when the row exists but is not owned by
the caller, and when no such row exists at all), delete and update both
return the not-found outcome and the state, including the stored row, is
unchanged. -/
theorem c1_wrong_owner_collapses_to_not_found (n : Nat) (u : String)
    (s : ServerState) (hu : validUser u = true) (hs : s.startupError = none)
    (hp : s.poolInit = true) (hf : s.fault = none)
    (hrow : ∀ r ∈ s.db.rows, r.id = n → r.user_id ≠ u)
    (da : DateArg) (amt : Option ℚ) (c sc nt : Option String)
    (hdate : badDate (cleanDate da) = false)
    (hfields : anyUpdateField da amt c sc nt = true) :
    delete_expense n u s = (.notFound n u, s) ∧
    update_expense n da amt c sc nt u s = (.notFound n u, s) := by
  have hcount : s.db.rows.countP (fun r => r.id == n && r.user_id == u) = 0 := by
    apply List.countP_eq_zero.mpr
    intro r hr
    simp only [Bool.and_eq_true, beq_iff_eq, not_and]
    intro h1 h2
    exact hrow r hr h1 h2
  constructor
  · rw [delete_run hu hs hp hf n, if_pos hcount]
  · rw [update_run hu hs hp hf n da amt c sc nt hdate,
      if_neg (by rw [hfields]; simp), if_pos hcount]

/-- Claim C1 witness: deleting and updating the bob-owned row as alice
both report not-found and leave the state unchanged. -/
theorem c1_wrong_owner_collapses_to_not_found_witness :
    (validUser ("alice") = true ∧
     (∀ r ∈ c1State.db.rows, r.id = 1 → r.user_id ≠ "alice") ∧
     badDate (cleanDate (DateArg.ofStr ("2024-02-02"))) = false ∧
     anyUpdateField (DateArg.ofStr ("2024-02-02")) none none none none = true) ∧
    delete_expense 1 ("alice") c1State = (.notFound 1 ("alice"), c1State) ∧
    update_expense 1 (DateArg.ofStr ("2024-02-02")) none none none none ("alice")
      c1State = (.notFound 1 ("alice"), c1State) :=
  ⟨⟨rfl, by decide, rfl, rfl⟩,
   c1_wrong_owner_collapses_to_not_found 1 ("alice") c1State rfl rfl rfl rfl
     (by decide) (DateArg.ofStr ("2024-02-02")) none none none none rfl rfl⟩

/-- Claim C4: update rejects a request supplying no fields and a bare
integer date (an int value, or a string whose cleaned form is all
digits) with the corresponding validation messages, leaving the state
unchanged; surrounding quote and whitespace characters are stripped from
string inputs before use, as the stored subcategory shows. -/
theorem c4_update_validation (n : Nat) (u : String) (s : ServerState)
    (hu : validUser u = true) (hs : s.startupError = none)
    (hp : s.poolInit = true) (hf : s.fault = none)
    (k : Int) (d : String) (hd : pyIsDigit (clean_input d) = true)
    (amt2 : Option ℚ) (c2 sc2 nt2 : Option String)
    (r : Expense) (sc : String) (hrows : s.db.rows = [r]) (hid : r.id = n)
    (hown : r.user_id = u) :
    update_expense n DateArg.nothing none none none none u s = (.noFields, s) ∧
    update_expense n (DateArg.ofInt k) amt2 c2 sc2 nt2 u s =
      (.invalidDate (toString k), s) ∧
    update_expense n (DateArg.ofStr d) amt2 c2 sc2 nt2 u s =
      (.invalidDate (clean_input d), s) ∧
    update_expense n DateArg.nothing none none (some sc) none u s =
      (.updated n,
       { s with db := { s.db with
           rows := [{ r with subcategory := clean_input sc }] } }) := by
  refine ⟨?_, ?_, ?_, ?_⟩
  · rw [update_run hu hs hp hf n DateArg.nothing none none none none rfl,
      if_pos (show anyUpdateField DateArg.nothing none none none none = false from rfl)]
  · simp only [update_expense, ensure_none_of_valid hu, cleanDate, badDate,
      dateShow, if_true]
  · simp only [update_expense, ensure_none_of_valid hu, cleanDate, badDate,
      dateShow, hd, if_true]
  · rw [update_run hu hs hp hf n DateArg.nothing none none (some sc) none rfl]
    have hcond : ∀ x : Expense, (x.id == n && x.user_id == u) =
        (x.id == r.id && x.user_id == r.user_id) := by
      intro x
      rw [hid, hown]
    rw [if_neg (by simp [anyUpdateField]), hrows]
    rw [if_neg (by simp [List.countP_cons, hcond])]
    simp [hcond, applyUpdate, cleanDate, dateField, truthyField]

/-- Claim C4 witness: the three validation rejections and the cleaned
subcategory write, on a concrete one-row state. -/
theorem c4_update_validation_witness :
    (validUser ("alice") = true ∧
     pyIsDigit (clean_input (" " ++ quoted ("2026") ++ " ")) = true ∧
     c4State.db.rows = [c4Row] ∧ c4Row.id = 7 ∧ c4Row.user_id = "alice") ∧
    update_expense 7 DateArg.nothing none none none none ("alice") c4State =
      (.noFields, c4State) ∧
    update_expense 7 (DateArg.ofInt 2026) none none none none ("alice") c4State =
      (.invalidDate (toString (2026 : Int)), c4State) ∧
    update_expense 7 (DateArg.ofStr (" " ++ quoted ("2026") ++ " ")) none none
      none none ("alice") c4State =
      (.invalidDate (clean_input (" " ++ quoted ("2026") ++ " ")), c4State) ∧
    update_expense 7 DateArg.nothing none none (some (quoted ("veg"))) none
      ("alice") c4State =
      (.updated 7,
       { c4State with db := { c4State.db with
           rows := [{ c4Row with subcategory := clean_input (quoted ("veg")) }] } }) :=
  ⟨⟨rfl, rfl, rfl, rfl, rfl⟩,
   c4_update_validation 7 ("alice") c4State rfl rfl rfl rfl 2026
     (" " ++ quoted ("2026") ++ " ") rfl none none none none c4Row
     (quoted ("veg")) rfl rfl rfl⟩

/-- A pool whose guard fails replays the error and touches nothing. -/
theorem withConn_err {s : ServerState} {e : String}
    (hg : getConnErr s = some e) (body : Except String (ToolResult × DB)) :
    withConn s body = (.dbError e, s) := by
  unfold withConn
  rw [hg]

/-- Claim C7 counterexample: under a captured startup failure, a call
with a guest user id returns the IdentityUnknown message, not the
PoolUnavailable error derived from the captured failure, so not every
subsequent call replays the startup failure. -/
theorem c7_counterexample :
    c7FailState.startupError =
      some ("Startup Failed: DATABASE_URL environment variable is missing or empty.") ∧
    (list_expenses ("2024-01-01") ("2024-12-31") ("guest") c7FailState).1 =
      .identityError ∧
    (list_expenses ("2024-01-01") ("2024-12-31") ("guest") c7FailState).1 ≠
      .dbError ("DATABASE ERROR: Startup Failed: DATABASE_URL environment variable is missing or empty.") := by
  refine ⟨rfl, rfl, ?_⟩
  decide

/-- Claim C7 (amended): a missing connection string is captured once
into the startup-error state by the non-crashing startup; afterwards
every call to any of the five operations that passes the identity guard
(and, for update, the pre-connection date validation) returns the
PoolUnavailable error derived from that captured failure, and the state
- the store and the captured error alike - is untouched. -/
theorem c7_startup_error_replayed (err : String) (s : ServerState)
    (hs : s.startupError = some err) (u : String) (hu : validUser u = true)
    (d : String) (amt : ℚ) (c sc nt a b : String) (cat : Option String)
    (eid : Nat) (da : DateArg) (amt2 : Option ℚ) (c2 sc2 nt2 : Option String)
    (hdate : badDate (cleanDate da) = false)
    (rawPf : Option String) (db0 : DB) :
    (initState none rawPf db0).startupError =
      some ("Startup Failed: DATABASE_URL environment variable is missing or empty.") ∧
    add_expense d amt c sc nt u s = (.dbError ("DATABASE ERROR: " ++ err), s) ∧
    list_expenses a b u s = (.dbError ("DATABASE ERROR: " ++ err), s) ∧
    summarize_expenses a b cat u s = (.dbError ("DATABASE ERROR: " ++ err), s) ∧
    delete_expense eid u s = (.dbError ("DATABASE ERROR: " ++ err), s) ∧
    update_expense eid da amt2 c2 sc2 nt2 u s =
      (.dbError ("DATABASE ERROR: " ++ err), s) := by
  have hg : getConnErr s = some ("DATABASE ERROR: " ++ err) := by
    unfold getConnErr
    rw [hs]
  refine ⟨rfl, ?_, ?_, ?_, ?_, ?_⟩ <;>
    simp only [add_expense, list_expenses, summarize_expenses, delete_expense,
      update_expense, ensure_none_of_valid hu, hdate, Bool.false_eq_true,
      if_false, withConn_err hg]

/-- Claim C7 witness: a concrete state with a captured pool-construction
failure replays it on all five operations for a named user. -/
theorem c7_startup_error_replayed_witness :
    (c7ErrState.startupError = some ("Startup Failed: boom") ∧
     validUser ("alice") = true ∧
     badDate (cleanDate DateArg.nothing) = false) ∧
    (initState none none { rows := [], nextId := 1 }).startupError =
      some ("Startup Failed: DATABASE_URL environment variable is missing or empty.") ∧
    add_expense ("2024-03-01") 10 ("food") ("") ("") ("alice") c7ErrState =
      (.dbError ("DATABASE ERROR: " ++ "Startup Failed: boom"), c7ErrState) ∧
    list_expenses ("2024-01-01") ("2024-12-31") ("alice") c7ErrState =
      (.dbError ("DATABASE ERROR: " ++ "Startup Failed: boom"), c7ErrState) ∧
    summarize_expenses ("2024-01-01") ("2024-12-31") none ("alice") c7ErrState =
      (.dbError ("DATABASE ERROR: " ++ "Startup Failed: boom"), c7ErrState) ∧
    delete_expense 1 ("alice") c7ErrState =
      (.dbError ("DATABASE ERROR: " ++ "Startup Failed: boom"), c7ErrState) ∧
    update_expense 1 DateArg.nothing none none none (some ("x")) ("alice")
      c7ErrState =
      (.dbError ("DATABASE ERROR: " ++ "Startup Failed: boom"), c7ErrState) :=
  ⟨⟨rfl, rfl, rfl⟩,
   c7_startup_error_replayed ("Startup Failed: boom") c7ErrState rfl ("alice")
     rfl ("2024-03-01") 10 ("food") ("") ("") ("2024-01-01") ("2024-12-31")
     none 1 DateArg.nothing none none none (some ("x")) rfl none
     { rows := [], nextId := 1 }⟩

/-- A list is a prefix of itself extended by anything. -/
theorem isPrefixOf_append (l m : List Char) : l.isPrefixOf (l ++ m) = true := by
  induction l with
  | nil => cases m <;> rfl
  | cons a as ih => simp [List.isPrefixOf, ih]

/-- Characters of a concatenation. -/
theorem toList_append (a b : String) : (a ++ b).toList = a.toList ++ b.toList :=
  String.data_append a b

/-- Claim C9 counterexample: the zero-fields ValidationError outcome of
update is rendered as a bare sentence that begins with none of the three
recognized error prefixes. -/
theorem c9_counterexample :
    (update_expense 1 DateArg.nothing none none none none ("alice") c1State).1 =
      .noFields ∧
    isFailureKind ToolResult.noFields = true ∧
    render ToolResult.noFields = "No fields provided for update." ∧
    recognizedError (render ToolResult.noFields) = false := by
  refine ⟨rfl, rfl, rfl, ?_⟩
  decide

/-- Claim C9 (amended): every failing outcome of the four spec failure
kinds except the zero-fields ValidationError is rendered as an in-band
payload beginning with one of the recognized error prefixes; the
zero-fields case alone is rendered without one. -/
theorem c9_failures_prefixed (r : ToolResult) (h : isFailureKind r = true)
    (hnf : r ≠ .noFields) : recognizedError (render r) = true := by
  cases r with
  | identityError => decide
  | dbError msg =>
      show recognizedError ("Database error: " ++ msg) = true
      unfold recognizedError
      have h1 : ("Database error: " ++ msg).toList =
          ("Database error:").toList ++ ((" ").toList ++ msg.toList) := by
        rw [toList_append,
          show ("Database error: ").toList = ("Database error:").toList ++ (" ").toList from rfl,
          List.append_assoc]
      rw [h1, isPrefixOf_append]
      rfl
  | invalidDate d =>
      show recognizedError ("Error: Invalid date format " ++ quoted d ++
        ". Please use YYYY-MM-DD (e.g., " ++ quoted ("2026-01-01") ++ ").") = true
      unfold recognizedError
      have h2 : ("Error: Invalid date format ").toList =
          ("Error:").toList ++ (" Invalid date format ").toList := rfl
      simp only [toList_append, h2, List.append_assoc]
      rw [isPrefixOf_append]
      simp
  | noFields => exact absurd rfl hnf
  | notFound a b => exact absurd h (by simp [isFailureKind])
  | added i => exact absurd h (by simp [isFailureKind])
  | deleted i => exact absurd h (by simp [isFailureKind])
  | updated i => exact absurd h (by simp [isFailureKind])
  | listed l => exact absurd h (by simp [isFailureKind])
  | noExpensesInRange a b c => exact absurd h (by simp [isFailureKind])
  | summarized l => exact absurd h (by simp [isFailureKind])
  | noExpenses a => exact absurd h (by simp [isFailureKind])

/-- Claim C9 witness: a database failure payload carries the recognized
first prefix. -/
theorem c9_failures_prefixed_witness :
    (isFailureKind (ToolResult.dbError ("boom")) = true ∧
     ToolResult.dbError ("boom") ≠ ToolResult.noFields) ∧
    recognizedError (render (ToolResult.dbError ("boom"))) = true :=
  ⟨⟨rfl, by decide⟩, c9_failures_prefixed (ToolResult.dbError ("boom")) rfl (by decide)⟩

/-- A map that fixes every member is the identity. -/
theorem map_id_of_eq {α : Type} {l : List α} {f : α → α}
    (h : ∀ x ∈ l, f x = x) : l.map f = l := by
  induction l with
  | nil => rfl
  | cons a as ih =>
      rw [List.map_cons, h a (by simp), ih (fun x hx => h x (by simp [hx]))]

/-- Claim C3 counterexample: updating only the category to the empty
string does not store the empty string; the code treats the falsy value
as absent, reports that no fields were provided, and leaves the row at
its old category. -/
theorem c3_counterexample :
    update_expense 7 DateArg.nothing none (some ("")) none none ("alice") c4State =
      (.noFields, c4State) ∧
    ((update_expense 7 DateArg.nothing none (some ("")) none none ("alice")
        c4State).2.db.rows.map (fun r => r.category)) = ["food"] := by
  constructor
  · rfl
  · rfl

/-- Claim C3 (amended): on a healthy state, update rewrites exactly the
row matching (id, user_id) and no other row; the amount, subcategory and
note fields follow an explicit per-field None sentinel, so a supplied
zero amount or empty string is stored (after quote/whitespace cleaning),
while the date and category fields are applied only when their cleaned
value is non-empty - an empty-string date or category is conflated with
absent and leaves the stored field unchanged. -/
theorem c3_update_frame_and_sentinels (n : Nat) (u : String) (s : ServerState)
    (hu : validUser u = true) (hs : s.startupError = none)
    (hp : s.poolInit = true) (hf : s.fault = none)
    (l1 l2 : List Expense) (r : Expense)
    (hrows : s.db.rows = l1 ++ r :: l2)
    (hid : r.id = n) (hown : r.user_id = u)
    (hothers : ∀ x ∈ l1 ++ l2, ¬(x.id = n ∧ x.user_id = u))
    (da : DateArg) (amt : Option ℚ) (c sc nt : Option String)
    (hdate : badDate (cleanDate da) = false)
    (hany : anyUpdateField da amt c sc nt = true) :
    ∃ r2 : Expense,
      update_expense n da amt c sc nt u s =
        (.updated n, { s with db := { s.db with rows := l1 ++ r2 :: l2 } }) ∧
      r2.id = r.id ∧ r2.user_id = r.user_id ∧
      r2.amount = amt.getD r.amount ∧
      r2.subcategory = (Option.map clean_input sc).getD r.subcategory ∧
      r2.note = (Option.map clean_input nt).getD r.note ∧
      r2.date = (match cleanDate da with
                 | DateArg.ofStr d2 => if d2 == "" then r.date else d2
                 | _ => r.date) ∧
      r2.category = (match Option.map clean_input c with
                     | some c2 => if c2 == "" then r.category else c2
                     | none => r.category) := by
  refine ⟨applyUpdate (dateField (cleanDate da)) amt
    (truthyField (Option.map clean_input c)) (Option.map clean_input sc)
    (Option.map clean_input nt) r, ?_, rfl, rfl, rfl, rfl, rfl, ?_, ?_⟩
  · have hcnt : ¬ s.db.rows.countP (fun x => x.id == n && x.user_id == u) = 0 := by
      rw [hrows]
      have hr : (fun x : Expense => x.id == n && x.user_id == u) r = true := by
        simp [hid, hown]
      simp [List.countP_append, List.countP_cons, hr]
    rw [update_run hu hs hp hf n da amt c sc nt hdate,
      if_neg (by rw [hany]; simp), if_neg hcnt, hrows, List.map_append,
      List.map_cons]
    have h1 : l1.map (fun x => if x.id == n && x.user_id == u then
        applyUpdate (dateField (cleanDate da)) amt
          (truthyField (Option.map clean_input c)) (Option.map clean_input sc)
          (Option.map clean_input nt) x else x) = l1 := by
      apply map_id_of_eq
      intro x hx
      rw [if_neg]
      simp only [Bool.and_eq_true, beq_iff_eq, not_and]
      intro ha hb
      exact hothers x (List.mem_append_left _ hx) ⟨ha, hb⟩
    have h2 : l2.map (fun x => if x.id == n && x.user_id == u then
        applyUpdate (dateField (cleanDate da)) amt
          (truthyField (Option.map clean_input c)) (Option.map clean_input sc)
          (Option.map clean_input nt) x else x) = l2 := by
      apply map_id_of_eq
      intro x hx
      rw [if_neg]
      simp only [Bool.and_eq_true, beq_iff_eq, not_and]
      intro ha hb
      exact hothers x (List.mem_append_right _ (by simp [hx])) ⟨ha, hb⟩
    rw [h1, h2, if_pos (by simp [hid, hown])]
  · show (dateField (cleanDate da)).getD r.date = _
    cases cleanDate da with
    | nothing => rfl
    | ofInt k => rfl
    | ofStr d2 =>
        show (if d2 == "" then none else some d2).getD r.date = _
        by_cases hd2 : d2 == ""
        · rw [if_pos hd2]
          simp [hd2]
        · rw [if_neg hd2]
          simp [hd2]
  · show (truthyField (Option.map clean_input c)).getD r.category = _
    cases Option.map clean_input c with
    | none => rfl
    | some c2 =>
        show (if c2 == "" then none else some c2).getD r.category = _
        by_cases hc2 : c2 == ""
        · rw [if_pos hc2]
          simp [hc2]
        · rw [if_neg hc2]
          simp [hc2]

/-- Claim C3 witness: updating the alice row with a zero amount, empty
subcategory, empty note, a fresh date and category rewrites exactly
those fields as stated by the sentinel semantics. -/
theorem c3_update_frame_and_sentinels_witness :
    (validUser ("alice") = true ∧ c4State.db.rows = [] ++ c4Row :: [] ∧
     c4Row.id = 7 ∧ c4Row.user_id = "alice" ∧
     (∀ x ∈ ([] ++ [] : List Expense), ¬(x.id = 7 ∧ x.user_id = "alice")) ∧
     badDate (cleanDate (DateArg.ofStr ("2024-06-06"))) = false ∧
     anyUpdateField (DateArg.ofStr ("2024-06-06")) (some 0) (some ("travel"))
       (some ("")) (some ("")) = true) ∧
    (∃ r2 : Expense,
      update_expense 7 (DateArg.ofStr ("2024-06-06")) (some 0) (some ("travel"))
        (some ("")) (some ("")) ("alice") c4State =
        (.updated 7, { c4State with db := { c4State.db with rows := [] ++ r2 :: [] } }) ∧
      r2.id = c4Row.id ∧ r2.user_id = c4Row.user_id ∧
      r2.amount = (some (0 : ℚ)).getD c4Row.amount ∧
      r2.subcategory = (Option.map clean_input (some (""))).getD c4Row.subcategory ∧
      r2.note = (Option.map clean_input (some (""))).getD c4Row.note ∧
      r2.date = (match cleanDate (DateArg.ofStr ("2024-06-06")) with
                 | DateArg.ofStr d2 => if d2 == "" then c4Row.date else d2
                 | _ => c4Row.date) ∧
      r2.category = (match Option.map clean_input (some ("travel")) with
                     | some c2 => if c2 == "" then c4Row.category else c2
                     | none => c4Row.category)) :=
  ⟨⟨rfl, rfl, rfl, rfl, by simp, rfl, rfl⟩,
   c3_update_frame_and_sentinels 7 ("alice") c4State rfl rfl rfl rfl [] []
     c4Row rfl rfl rfl (by simp) (DateArg.ofStr ("2024-06-06")) (some 0)
     (some ("travel")) (some ("")) (some ("")) rfl rfl⟩

/-- Sorted insertion only rearranges. -/
theorem perm_insertLe {α : Type} (le : α → α → Bool) (x : α) (l : List α) :
    (insertLe le x l).Perm (x :: l) := by
  induction l with
  | nil => exact List.Perm.refl _
  | cons y ys ih =>
      simp only [insertLe]
      split
      · exact List.Perm.refl _
      · exact (ih.cons y).trans (List.Perm.swap x y ys)

/-- Insertion sort only rearranges. -/
theorem perm_sortLe {α : Type} (le : α → α → Bool) (l : List α) :
    (sortLe le l).Perm l := by
  induction l with
  | nil => exact List.Perm.refl _
  | cons x xs ih => exact (perm_insertLe le x (sortLe le xs)).trans (ih.cons x)

/-- Claim C5: a valid add returns the fresh id; a list over a range
containing the inserted date, by the same user, contains the row with
exactly the inserted fields and that id, and the list result is the
listed outcome; a list by a different user never contains that id. -/
theorem c5_add_then_list (d : String) (amt : ℚ) (c sc nt u u2 a b : String)
    (s : ServerState) (hu : validUser u = true)
    (hs : s.startupError = none) (hp : s.poolInit = true) (hf : s.fault = none)
    (hfresh : ∀ r ∈ s.db.rows, r.id < s.db.nextId)
    (hga : strLe a d = true) (hgb : strLe d b = true) (hdiff : u2 ≠ u) :
    (add_expense d amt c sc nt u s).1 = .added s.db.nextId ∧
    (⟨s.db.nextId, u, d, amt, c, sc, nt⟩ : Expense) ∈
      listRows (add_expense d amt c sc nt u s).2.db u a b ∧
    (list_expenses a b u (add_expense d amt c sc nt u s).2).1 =
      .listed (listRows (add_expense d amt c sc nt u s).2.db u a b) ∧
    ∀ r ∈ listRows (add_expense d amt c sc nt u s).2.db u2 a b,
      r.id ≠ s.db.nextId := by
  rw [add_run hu hs hp hf d amt c sc nt]
  dsimp only
  have hmem : (⟨s.db.nextId, u, d, amt, c, sc, nt⟩ : Expense) ∈
      listRows { rows := s.db.rows ++ [⟨s.db.nextId, u, d, amt, c, sc, nt⟩],
                 nextId := s.db.nextId + 1 } u a b := by
    unfold listRows
    rw [(perm_sortLe _ _).mem_iff, List.filter_append]
    apply List.mem_append_right
    simp [listMatch, hga, hgb]
  refine ⟨rfl, hmem, ?_, ?_⟩
  · rw [@list_run u
      { s with db := { rows := s.db.rows ++ [⟨s.db.nextId, u, d, amt, c, sc, nt⟩],
                       nextId := s.db.nextId + 1 } } hu hs hp hf a b]
    rw [if_neg]
    intro hE
    rw [List.isEmpty_iff] at hE
    rw [hE] at hmem
    exact absurd hmem (List.not_mem_nil _)
  · intro r hr
    unfold listRows at hr
    rw [(perm_sortLe _ _).mem_iff] at hr
    have hr2 := List.mem_filter.mp hr
    rcases List.mem_append.mp hr2.1 with hin | hin
    · exact Nat.ne_of_lt (hfresh r hin)
    · exfalso
      have : r = ⟨s.db.nextId, u, d, amt, c, sc, nt⟩ := by
        simpa using hin
      have hmatch := hr2.2
      rw [this] at hmatch
      unfold listMatch at hmatch
      simp only [Bool.and_eq_true, beq_iff_eq] at hmatch
      exact hdiff hmatch.1.1.symm

/-- Claim C5 witness: the spec scenario with alice, 12.50 and food; bob
sees nothing with the new id. -/
theorem c5_add_then_list_witness :
    (validUser ("alice") = true ∧
     (∀ r ∈ demoState.db.rows, r.id < demoState.db.nextId) ∧
     strLe ("2024-01-01") ("2024-03-01") = true ∧
     strLe ("2024-03-01") ("2024-12-31") = true ∧ ("bob" : String) ≠ "alice") ∧
    (add_expense ("2024-03-01") (125/10) ("food") ("") ("") ("alice")
      demoState).1 = .added demoState.db.nextId ∧
    (⟨demoState.db.nextId, "alice", "2024-03-01", 125/10, "food", "", ""⟩ : Expense) ∈
      listRows (add_expense ("2024-03-01") (125/10) ("food") ("") ("") ("alice")
        demoState).2.db ("alice") ("2024-01-01") ("2024-12-31") ∧
    (list_expenses ("2024-01-01") ("2024-12-31") ("alice")
      (add_expense ("2024-03-01") (125/10) ("food") ("") ("") ("alice")
        demoState).2).1 =
      .listed (listRows (add_expense ("2024-03-01") (125/10) ("food") ("") ("")
        ("alice") demoState).2.db ("alice") ("2024-01-01") ("2024-12-31")) ∧
    ∀ r ∈ listRows (add_expense ("2024-03-01") (125/10) ("food") ("") ("")
        ("alice") demoState).2.db ("bob") ("2024-01-01") ("2024-12-31"),
      r.id ≠ demoState.db.nextId :=
  ⟨⟨rfl, by simp [demoState], rfl, rfl, by decide⟩,
   c5_add_then_list ("2024-03-01") (125/10) ("food") ("") ("") ("alice") ("bob")
     ("2024-01-01") ("2024-12-31") demoState rfl rfl rfl rfl
     (by simp [demoState]) rfl rfl (by decide)⟩

/-- Code-point order on character lists is total. -/
theorem lexLe_total : ∀ x y : List Char, lexLe x y = true ∨ lexLe y x = true
  | [], _ => Or.inl rfl
  | _ :: _, [] => Or.inr rfl
  | a :: as, b :: bs => by
      unfold lexLe
      rcases Nat.lt_trichotomy a.toNat b.toNat with h | h | h
      · left
        rw [if_pos h]
      · rw [if_neg (by omega), if_pos h, if_neg (by omega), if_pos h.symm]
        exact lexLe_total as bs
      · right
        rw [if_pos h]

/-- Code-point order on character lists is transitive. -/
theorem lexLe_trans : ∀ x y z : List Char,
    lexLe x y = true → lexLe y z = true → lexLe x z = true
  | [], _, _, _, _ => rfl
  | a :: as, [], z, h1, _ => absurd h1 (by simp [lexLe])
  | a :: as, b :: bs, [], _, h2 => absurd h2 (by simp [lexLe])
  | a :: as, b :: bs, c :: cs, h1, h2 => by
      unfold lexLe at h1 h2 ⊢
      by_cases hab : a.toNat < b.toNat
      · by_cases hbc : b.toNat < c.toNat
        · rw [if_pos (by omega)]
        · rw [if_neg hbc] at h2
          by_cases hbc2 : b.toNat = c.toNat
          · rw [if_pos (by omega)]
          · rw [if_neg hbc2] at h2
            exact absurd h2 Bool.false_ne_true
      · rw [if_neg hab] at h1
        by_cases hab2 : a.toNat = b.toNat
        · rw [if_pos hab2] at h1
          by_cases hbc : b.toNat < c.toNat
          · rw [if_pos (by omega)]
          · rw [if_neg hbc] at h2
            by_cases hbc2 : b.toNat = c.toNat
            · rw [if_pos hbc2] at h2
              rw [if_neg (by omega), if_pos (by omega)]
              exact lexLe_trans as bs cs h1 h2
            · rw [if_neg hbc2] at h2
              exact absurd h2 Bool.false_ne_true
        · rw [if_neg hab2] at h1
          exact absurd h1 Bool.false_ne_true

/-- String comparison is total. -/
theorem strLe_total (a b : String) : strLe a b = true ∨ strLe b a = true :=
  lexLe_total a.toList b.toList

/-- String comparison is transitive. -/
theorem strLe_trans {a b c : String} (h1 : strLe a b = true)
    (h2 : strLe b c = true) : strLe a c = true :=
  lexLe_trans a.toList b.toList c.toList h1 h2

/-- Sorted insertion keeps a list pairwise ordered, for a total and
transitive boolean relation. -/
theorem pairwise_insertLe {α : Type} {le : α → α → Bool}
    (htot : ∀ x y, le x y = true ∨ le y x = true)
    (htr : ∀ x y z, le x y = true → le y z = true → le x z = true)
    (x : α) {l : List α} (h : l.Pairwise (fun a b => le a b = true)) :
    (insertLe le x l).Pairwise (fun a b => le a b = true) := by
  induction l with
  | nil => simp [insertLe]
  | cons y ys ih =>
      rcases List.pairwise_cons.mp h with ⟨hy, hys⟩
      simp only [insertLe]
      by_cases hxy : le x y = true
      · rw [if_pos hxy]
        refine List.pairwise_cons.mpr ⟨?_, h⟩
        intro z hz
        rcases List.mem_cons.mp hz with rfl | hz2
        · exact hxy
        · exact htr x y z hxy (hy z hz2)
      · rw [if_neg hxy]
        refine List.pairwise_cons.mpr ⟨?_, ih hys⟩
        intro z hz
        rw [(perm_insertLe le x ys).mem_iff] at hz
        rcases List.mem_cons.mp hz with hzx | hz2
        · rcases htot x y with hxy2 | hyx
          · exact absurd hxy2 hxy
          · rw [hzx]
            exact hyx
        · exact hy z hz2

/-- Insertion sort produces a pairwise ordered list, for a total and
transitive boolean relation. -/
theorem pairwise_sortLe {α : Type} {le : α → α → Bool}
    (htot : ∀ x y, le x y = true ∨ le y x = true)
    (htr : ∀ x y z, le x y = true → le y z = true → le x z = true)
    (l : List α) : (sortLe le l).Pairwise (fun a b => le a b = true) := by
  induction l with
  | nil => simp [sortLe]
  | cons x xs ih =>
      simp only [sortLe]
      exact pairwise_insertLe htot htr x ih

/-- A permutation preserves emptiness. -/
theorem perm_eq_nil_iff {α : Type} {l1 l2 : List α} (h : l1.Perm l2) :
    l1 = [] ↔ l2 = [] := by
  constructor
  · intro he
    rw [he] at h
    exact h.nil_eq.symm
  · intro he
    rw [he] at h
    exact h.eq_nil

/-- The summarize WHERE clause is the list WHERE clause plus the
category condition. -/
theorem summMatch_decomp (u a b : String) (cat : Option String) (r : Expense) :
    summMatch u a b cat r = (listMatch u a b r && catCond cat r) := rfl

/-- A row of a surviving category satisfies the category condition. -/
theorem catCond_of_passFilter {cat : Option String} {r : Expense} {cname : String}
    (hc : r.category = cname) (hp : passFilter cat cname = true) :
    catCond cat r = true := by
  cases cat with
  | none => rfl
  | some c0 =>
      simp only [passFilter] at hp
      simp only [catCond]
      by_cases h0 : c0 == ""
      · rw [if_pos h0]
      · rw [if_neg h0]
        rw [Bool.or_eq_true] at hp
        rcases hp with hp2 | hp2
        · exact absurd hp2 h0
        · rw [hc]
          exact hp2

/-- A category with a matching row survives the filter. -/
theorem passFilter_of_catCond {cat : Option String} {r : Expense} {cname : String}
    (hc : r.category = cname) (h : catCond cat r = true) :
    passFilter cat cname = true := by
  cases cat with
  | none => rfl
  | some c0 =>
      simp only [catCond] at h
      simp only [passFilter]
      by_cases h0 : c0 == ""
      · rw [h0]
        rfl
      · rw [if_neg h0] at h
        rw [← hc, h]
        simp

/-- For a surviving category name, the summarize clause conjoined with
that name is the list clause conjoined with that name. -/
theorem match_filter_eq (u a b : String) (cat : Option String) (cname : String)
    (hpf : passFilter cat cname = true) (r : Expense) :
    (summMatch u a b cat r && (r.category == cname)) =
      (listMatch u a b r && (r.category == cname)) := by
  by_cases hc : (r.category == cname) = true
  · have hceq : r.category = cname := by simpa using hc
    rw [summMatch_decomp, catCond_of_passFilter hceq hpf, Bool.and_true]
  · have hcf : (r.category == cname) = false := by simpa using hc
    rw [hcf, Bool.and_false, Bool.and_false]

/-- The rows a summary bucket sums are, up to order, the rows list
returns for that category. -/
theorem summ_filter_perm (db : DB) (u a b : String) (cat : Option String)
    (cname : String) (hpf : passFilter cat cname = true) :
    ((db.rows.filter (summMatch u a b cat)).filter
        (fun r => r.category == cname)).Perm
      ((listRows db u a b).filter (fun r => r.category == cname)) := by
  have h1 : (db.rows.filter (summMatch u a b cat)).filter
      (fun r => r.category == cname)
      = db.rows.filter (fun r => listMatch u a b r && (r.category == cname)) := by
    rw [List.filter_filter]
    apply List.filter_congr
    intro r hr
    exact (Bool.and_comm _ _).trans (match_filter_eq u a b cat cname hpf r)
  have h2 : ((listRows db u a b).filter (fun r => r.category == cname)).Perm
      (db.rows.filter (fun r => listMatch u a b r && (r.category == cname))) := by
    unfold listRows
    refine ((perm_sortLe _ _).filter _).trans ?_
    rw [List.filter_filter]
    exact List.Perm.of_eq (List.filter_congr (fun r hr => Bool.and_comm _ _))
  rw [h1]
  exact h2.symm

/-- Claim C6: on a healthy state, summarize reports the grouped result
with the state untouched; the group keys are strictly ascending category
names; and a pair (category, total) is reported exactly when the list
query for the same user and range has a row of that surviving category,
with the total equal to the sum of amounts over exactly those list rows. -/
theorem c6_summarize_cross_check (u a b : String) (cat : Option String)
    (s : ServerState) (hu : validUser u = true) (hs : s.startupError = none)
    (hp : s.poolInit = true) (hf : s.fault = none) :
    summarize_expenses a b cat u s =
      ((if (summaryRows s.db u a b cat).isEmpty then .noExpenses u
        else .summarized (summaryRows s.db u a b cat)), s) ∧
    ((summaryRows s.db u a b cat).map Prod.fst).Pairwise
      (fun x y => strLt x y = true) ∧
    ∀ cname t, ((cname, t) ∈ summaryRows s.db u a b cat ↔
      (passFilter cat cname = true ∧
       (listRows s.db u a b).filter (fun r => r.category == cname) ≠ [] ∧
       t = (((listRows s.db u a b).filter (fun r => r.category == cname)).map
         (fun r => r.amount)).sum)) := by
  refine ⟨summarize_run hu hs hp hf a b cat, ?_, ?_⟩
  · unfold summaryRows
    rw [List.map_map]
    have hid : (Prod.fst ∘ (fun c => (c,
        (((s.db.rows.filter (summMatch u a b cat)).filter
          (fun r => r.category == c)).map (fun r => r.amount)).sum))) =
        (fun c : String => c) := rfl
    rw [hid]
    rw [List.map_id']
    have hpw := @pairwise_sortLe String strLe strLe_total
      (fun x y z h1 h2 => strLe_trans h1 h2)
      ((s.db.rows.filter (summMatch u a b cat)).map (fun r => r.category)).dedup
    have hnd : (sortLe strLe
        ((s.db.rows.filter (summMatch u a b cat)).map
          (fun r => r.category)).dedup).Nodup :=
      (perm_sortLe strLe _).nodup_iff.mpr (List.nodup_dedup _)
    exact (hpw.and hnd).imp (fun h => by
      simp only [strLt, Bool.and_eq_true, bne_iff_ne]
      exact ⟨h.1, h.2⟩)
  · intro cname t
    constructor
    · intro hmem
      unfold summaryRows at hmem
      rcases List.mem_map.mp hmem with ⟨c0, hc0, hgc⟩
      cases hgc
      have hc1 : cname ∈ ((s.db.rows.filter (summMatch u a b cat)).map
          (fun r => r.category)).dedup := (perm_sortLe strLe _).mem_iff.mp hc0
      rcases List.mem_map.mp (List.mem_dedup.mp hc1) with ⟨r, hrfil, hrc⟩
      have hsum := List.mem_filter.mp hrfil
      have hcc : catCond cat r = true := by
        have := hsum.2
        rw [summMatch_decomp, Bool.and_eq_true] at this
        exact this.2
      have hpf : passFilter cat cname = true := passFilter_of_catCond hrc hcc
      have hperm := summ_filter_perm s.db u a b cat cname hpf
      refine ⟨hpf, ?_, ?_⟩
      · apply List.ne_nil_of_mem
        apply hperm.mem_iff.mp
        exact List.mem_filter.mpr ⟨hrfil, by simp [hrc]⟩
      · exact (hperm.map (fun r => r.amount)).sum_eq
    · rintro ⟨hpf, hne, ht⟩
      rcases List.exists_mem_of_ne_nil _ hne with ⟨r, hr⟩
      have hr2 := List.mem_filter.mp hr
      have hrc : r.category = cname := by simpa using hr2.2
      have hrlist : r ∈ s.db.rows.filter (listMatch u a b) := by
        have := hr2.1
        unfold listRows at this
        exact (perm_sortLe _ _).mem_iff.mp this
      have hrl2 := List.mem_filter.mp hrlist
      have hrsumm : r ∈ s.db.rows.filter (summMatch u a b cat) :=
        List.mem_filter.mpr ⟨hrl2.1, by
          rw [summMatch_decomp, Bool.and_eq_true]
          exact ⟨hrl2.2, catCond_of_passFilter hrc hpf⟩⟩
      have hcmem : cname ∈ sortLe strLe
          ((s.db.rows.filter (summMatch u a b cat)).map
            (fun r => r.category)).dedup := by
        rw [(perm_sortLe strLe _).mem_iff, List.mem_dedup]
        exact List.mem_map.mpr ⟨r, hrsumm, hrc⟩
      unfold summaryRows
      apply List.mem_map.mpr
      refine ⟨cname, hcmem, ?_⟩
      have hperm := summ_filter_perm s.db u a b cat cname hpf
      rw [ht, (hperm.map (fun r => r.amount)).sum_eq]

/-- Claim C6 witness: the grouped summary over the two-category state. -/
theorem c6_summarize_cross_check_witness :
    (validUser ("alice") = true ∧ c6State.startupError = none ∧
     c6State.poolInit = true ∧ c6State.fault = none) ∧
    (summarize_expenses ("2024-01-01") ("2024-12-31") none ("alice") c6State =
      ((if (summaryRows c6State.db ("alice") ("2024-01-01") ("2024-12-31")
            none).isEmpty then .noExpenses ("alice")
        else .summarized (summaryRows c6State.db ("alice") ("2024-01-01")
          ("2024-12-31") none)), c6State) ∧
    ((summaryRows c6State.db ("alice") ("2024-01-01") ("2024-12-31")
        none).map Prod.fst).Pairwise (fun x y => strLt x y = true) ∧
    ∀ cname t, ((cname, t) ∈ summaryRows c6State.db ("alice") ("2024-01-01")
        ("2024-12-31") none ↔
      (passFilter none cname = true ∧
       (listRows c6State.db ("alice") ("2024-01-01") ("2024-12-31")).filter
         (fun r => r.category == cname) ≠ [] ∧
       t = (((listRows c6State.db ("alice") ("2024-01-01")
           ("2024-12-31")).filter (fun r => r.category == cname)).map
         (fun r => r.amount)).sum))) :=
  ⟨⟨rfl, rfl, rfl, rfl⟩,
   c6_summarize_cross_check ("alice") ("2024-01-01") ("2024-12-31") none
     c6State rfl rfl rfl rfl⟩

end ExpenseServer
